import Mathlib

/-!
Shallow embedding of the BNO080 SH-2 HAL transport layer
(`Hillcrest/sh2_hal_i2c.c`): the blocking I2C transaction primitives,
the per-unit device registry with its read-length state machine, the
worker task's event processing step, and the public unit API
(`sh2_hal_reset` / `sh2_hal_tx` / `sh2_hal_rx` / `sh2_hal_block` /
`sh2_hal_unblock`).

Modelling conventions:
- Machine integers are `Nat`; `uint16_t` stores and `uint32_t` products
  take an explicit `% 2^w` where the C value could wrap.
- FreeRTOS semaphore operations, GPIO writes, delays, I2C issue calls
  and the `onRx` callback invocation are recorded as events in an
  explicit trace (`List BusEv`), so that lock discipline and
  "no hardware touched" claims are statements about the trace.
- The asynchronous I2C completion (interrupt callbacks
  `HAL_I2C_MasterRxCpltCallback` / `HAL_I2C_MasterTxCpltCallback` /
  `HAL_I2C_ErrorCallback` writing `i2cStatus`, plus the synchronous
  return code of `HAL_I2C_Master_Receive_IT` / `Transmit_IT`) is an
  oracle parameter `I2cOutcome` supplied to each transaction.
- `SH2_UNITS` and `SH2_HAL_MAX_TRANSFER` come from headers that are not
  part of the two sources; the spec lists them among the configuration
  tunables, so they are parameters of every definition that needs them.
- `sh2_err.h` is likewise not among the sources; its status codes
  (`SH2_OK`, `SH2_ERR_BAD_PARAM`, `SH2_ERR_IO`) are modelled as the
  enumeration `Sh2Status` following the spec's error taxonomy.
-/

namespace Sh2Hal

/-- `#define SHTP_HEADER_LEN (4)`. -/
def SHTP_HEADER_LEN : Nat := 4

/-- `#define DFU_BOOT_DELAY (200)` (milliseconds). -/
def DFU_BOOT_DELAY : Nat := 200

/-- `#define RESET_DELAY (10)` (milliseconds). -/
def RESET_DELAY : Nat := 10

/-- `#define ADDR_DFU_0 (0x28)`. -/
def ADDR_DFU_0 : Nat := 0x28

/-- `#define ADDR_DFU_1 (0x29)`. -/
def ADDR_DFU_1 : Nat := 0x29

/-- `#define ADDR_SH2_0 (0x4A)`. -/
def ADDR_SH2_0 : Nat := 0x4A

/-- `#define ADDR_SH2_1 (0x4B)`. -/
def ADDR_SH2_1 : Nat := 0x4B

/-- Status codes of the SH-2 HAL API. Modelled from the spec: `sh2_err.h`
is not among the sources, so the concrete integer values of `SH2_OK`,
`SH2_ERR_BAD_PARAM` and `SH2_ERR_IO` are unknown; the spec's error
taxonomy (`Ok`, `BadParam`, `IoError`) gives one constructor per code. -/
inductive Sh2Status where
  | ok
  | badParam
  | ioErr
deriving DecidableEq, Repr

/-- Observable actions of the HAL: semaphore operations, bus
reinitialization, I2C transfer issue, GPIO control-line writes, task
delays, and the `onRx` callback invocation.  Each run of an embedded
function returns the list of actions it performed, in order. -/
inductive BusEv where
  | takeI2cMutex
  | giveI2cMutex
  | i2cReset
  | issueRx (addr : Nat) (len : Nat)
  | issueTx (addr : Nat) (data : List Nat) (len : Nat)
  | takeI2cBlockSem
  | takeUnitBlockSem (unit : Nat)
  | giveUnitBlockSem (unit : Nat)
  | rstn (unit : Nat) (state : Bool)
  | bootn (unit : Nat) (state : Bool)
  | delay (ms : Nat)
  | onRxCall (unit : Nat) (cookie : Nat) (buf : List Nat) (len : Nat) (t_us : Nat)
deriving DecidableEq, Repr

/-- Outcome of one interrupt-driven I2C transfer, supplied as an oracle:
either `HAL_I2C_Master_Receive_IT` / `Transmit_IT` returns non-zero
(synchronous issue failure, no completion interrupt), or the transfer
completes and an interrupt callback sets `i2cStatus` to `SH2_OK`
(`completeOk`) or `SH2_ERR_IO` (`completeErr`).  For a receive, `data`
is the buffer contents the hardware left behind. -/
inductive I2cOutcome where
  | issueFail
  | completeOk (data : List Nat)
  | completeErr (data : List Nat)
deriving DecidableEq, Repr

/-- Per-unit state `Sh2_t` (the `sh2[SH2_UNITS]` array entries).  The
function pointers `rstn` / `bootn` act only through the trace, and the
per-unit `blockSem` likewise, so neither needs a field here; `onRx`
being a possibly-null function pointer is modelled by the Bool
`onRx` ("a callback is registered") plus the opaque `cookie`. -/
structure Sh2Unit where
  onRx : Bool
  cookie : Nat
  addr : Nat
  rxBuf : List Nat
  rxRemaining : Nat
deriving Repr

/-- Shared mutable state of the module: the `i2cResetNeeded` flag and
the per-unit array (indexed by unit number; indices `≥ SH2_UNITS` are
never read by the embedded code, mirroring the C array bound). -/
structure HalState where
  i2cResetNeeded : Bool
  sh2 : Nat → Sh2Unit

/-- State of one unit after `sh2_hal_init`: `memset` to zero, so no
callback, address 0, empty remainder; the receive buffer holds
`SH2_HAL_MAX_TRANSFER` zero bytes. -/
def initUnit (maxTransfer : Nat) : Sh2Unit :=
  { onRx := false, cookie := 0, addr := 0,
    rxBuf := List.replicate maxTransfer 0, rxRemaining := 0 }

/-- Shared state established by `sh2_hal_init`: `i2cResetNeeded = true`
and every unit zeroed. -/
def sh2_hal_init (maxTransfer : Nat) : HalState :=
  { i2cResetNeeded := true, sh2 := fun _ => initUnit maxTransfer }

/-- Embedding of `i2cBlockingRx`: take the bus mutex, run `i2cReset` if
`i2cResetNeeded` (clearing the flag), issue the asynchronous receive;
on synchronous issue failure return `SH2_ERR_IO` at once, otherwise
wait on `i2cBlockSem` and return the `i2cStatus` the completion
interrupt wrote; give the mutex back on every path.  Returns
`(status, i2cResetNeeded afterwards, buffer contents afterwards,
trace)`. -/
def i2cBlockingRx (resetNeeded : Bool) (addr : Nat) (buf : List Nat) (len : Nat)
    (oc : I2cOutcome) : Sh2Status × Bool × List Nat × List BusEv :=
  let t0 := [BusEv.takeI2cMutex]
  let rn1 := if resetNeeded then false else resetNeeded
  let t1 := if resetNeeded then t0 ++ [BusEv.i2cReset] else t0
  match oc with
  | .issueFail =>
      (.ioErr, rn1, buf, t1 ++ [BusEv.issueRx addr len, BusEv.giveI2cMutex])
  | .completeOk d =>
      (.ok, rn1, d,
        t1 ++ [BusEv.issueRx addr len, BusEv.takeI2cBlockSem, BusEv.giveI2cMutex])
  | .completeErr d =>
      (.ioErr, rn1, d,
        t1 ++ [BusEv.issueRx addr len, BusEv.takeI2cBlockSem, BusEv.giveI2cMutex])

/-- Embedding of `i2cBlockingTx`: same protocol as `i2cBlockingRx` with
a transmit issue; the caller's data is not modified, so the result is
`(status, i2cResetNeeded afterwards, trace)`. -/
def i2cBlockingTx (resetNeeded : Bool) (addr : Nat) (data : List Nat) (len : Nat)
    (oc : I2cOutcome) : Sh2Status × Bool × List BusEv :=
  let t0 := [BusEv.takeI2cMutex]
  let rn1 := if resetNeeded then false else resetNeeded
  let t1 := if resetNeeded then t0 ++ [BusEv.i2cReset] else t0
  match oc with
  | .issueFail =>
      (.ioErr, rn1, t1 ++ [BusEv.issueTx addr data len, BusEv.giveI2cMutex])
  | .completeOk _ =>
      (.ok, rn1,
        t1 ++ [BusEv.issueTx addr data len, BusEv.takeI2cBlockSem, BusEv.giveI2cMutex])
  | .completeErr _ =>
      (.ioErr, rn1,
        t1 ++ [BusEv.issueTx addr data len, BusEv.takeI2cBlockSem, BusEv.giveI2cMutex])

/-- Read-length computation of `halTask` (lines 350-359): start from
`rxRemaining`, raise to at least `SHTP_HEADER_LEN`, then cap at
`SH2_HAL_MAX_TRANSFER` (here the parameter `maxTransfer`). -/
def computeReadLen (maxTransfer remaining : Nat) : Nat :=
  let readLen := remaining
  let readLen := if readLen < SHTP_HEADER_LEN then SHTP_HEADER_LEN else readLen
  if readLen > maxTransfer then maxTransfer else readLen

/-- Cargo-length decode of `halTask` (line 365):
`((rxBuf[1] << 8) + rxBuf[0]) & (~0x8000)`.  The C computes in 32-bit
`int`, where `~0x8000` has the two's-complement bit pattern
`0xFFFF7FFF`; the left operand is a sum of two bytes, hence
non-negative, so the `&` is the bitwise and of the `Nat` values. -/
def decodeCargoLen (buf : List Nat) : Nat :=
  (((buf.getD 1 0) <<< 8) + buf.getD 0 0) &&& 0xFFFF7FFF

/-- `rxRemaining` update of `halTask` (lines 368-375): if the declared
cargo exceeds what was just read, the remainder is
`cargoLen - readLen + SHTP_HEADER_LEN` (stored into the `uint16_t`
field, hence the `% 2^16`); otherwise 0. -/
def nextRxRemaining (cargoLen readLen : Nat) : Nat :=
  if cargoLen > readLen then ((cargoLen - readLen) + SHTP_HEADER_LEN) % 65536
  else 0

/-- Bus address assignment of `sh2_hal_reset` (lines 168-173): unit 1
uses the `_1` constants, every other unit the `_0` constants, DFU mode
selecting the DFU constant; the 7-bit address is shifted left once for
the STM32 HAL. -/
def unitAddr (unit : Nat) (dfuMode : Bool) : Nat :=
  if unit = 1 then (if dfuMode then ADDR_DFU_1 <<< 1 else ADDR_SH2_1 <<< 1)
  else (if dfuMode then ADDR_DFU_0 <<< 1 else ADDR_SH2_0 <<< 1)

/-- Embedding of `sh2_hal_reset`: reject a unit index `≥ SH2_UNITS`
before any lock; otherwise take the bus mutex, store callback and
cookie, store the mode-dependent address, drive `rstn` low, `bootn`
to `!dfuMode`, delay, drive `rstn` high (plus the DFU boot delay when
entering DFU mode), set `i2cResetNeeded`, give the mutex, return
`SH2_OK`. -/
def sh2_hal_reset (SH2_UNITS : Nat) (st : HalState) (unit : Nat) (dfuMode : Bool)
    (onRx : Bool) (cookie : Nat) : Sh2Status × HalState × List BusEv :=
  if unit ≥ SH2_UNITS then (.badParam, st, [])
  else
    let u := st.sh2 unit
    let u' := { u with onRx := onRx, cookie := cookie, addr := unitAddr unit dfuMode }
    let trace :=
      [BusEv.takeI2cMutex, BusEv.rstn unit false, BusEv.bootn unit (!dfuMode),
       BusEv.delay RESET_DELAY, BusEv.rstn unit true] ++
      (if dfuMode then [BusEv.delay DFU_BOOT_DELAY] else []) ++
      [BusEv.giveI2cMutex]
    (.ok,
     { i2cResetNeeded := true,
       sh2 := fun i => if i = unit then u' else st.sh2 i },
     trace)

/-- Embedding of `sh2_hal_tx`: `BadParam` for a unit index
`≥ SH2_UNITS`; success with no action for `len = 0`; otherwise one
blocking transmit at the unit's stored address. -/
def sh2_hal_tx (SH2_UNITS : Nat) (st : HalState) (unit : Nat) (pData : List Nat)
    (len : Nat) (oc : I2cOutcome) : Sh2Status × HalState × List BusEv :=
  if unit ≥ SH2_UNITS then (.badParam, st, [])
  else if len = 0 then (.ok, st, [])
  else
    let r := i2cBlockingTx st.i2cResetNeeded (st.sh2 unit).addr pData len oc
    (r.1, { st with i2cResetNeeded := r.2.1 }, r.2.2)

/-- Embedding of `sh2_hal_rx`: `BadParam` for a unit index
`≥ SH2_UNITS`; success with no action for `len = 0`; otherwise one
blocking receive at the unit's stored address into the caller's
buffer, whose final contents are returned alongside. -/
def sh2_hal_rx (SH2_UNITS : Nat) (st : HalState) (unit : Nat) (pData : List Nat)
    (len : Nat) (oc : I2cOutcome) : Sh2Status × HalState × List Nat × List BusEv :=
  if unit ≥ SH2_UNITS then (.badParam, st, pData, [])
  else if len = 0 then (.ok, st, pData, [])
  else
    let r := i2cBlockingRx st.i2cResetNeeded (st.sh2 unit).addr pData len oc
    (r.1, { st with i2cResetNeeded := r.2.1 }, r.2.2.1, r.2.2.2)

/-- Embedding of `sh2_hal_block`: `BadParam` for a unit index
`≥ SH2_UNITS`; otherwise take the unit's `blockSem`. -/
def sh2_hal_block (SH2_UNITS : Nat) (st : HalState) (unit : Nat) :
    Sh2Status × HalState × List BusEv :=
  if unit ≥ SH2_UNITS then (.badParam, st, [])
  else (.ok, st, [BusEv.takeUnitBlockSem unit])

/-- Embedding of `sh2_hal_unblock`: `BadParam` for a unit index
`≥ SH2_UNITS`; otherwise give the unit's `blockSem`. -/
def sh2_hal_unblock (SH2_UNITS : Nat) (st : HalState) (unit : Nat) :
    Sh2Status × HalState × List BusEv :=
  if unit ≥ SH2_UNITS then (.badParam, st, [])
  else (.ok, st, [BusEv.giveUnitBlockSem unit])

/-- `EventId_t` value `EVT_INTN`.  The C type is an enum (an `int`), so
event kinds are modelled as `Nat` with `EVT_INTN = 0`; any other value
falls into the `default` arm of the `switch` in `halTask`. -/
def EVT_INTN : Nat := 0

/-- The `Event_t` queue element: tick-count timestamp, event kind,
unit index. -/
structure Event where
  t_ms : Nat
  id : Nat
  unit : Nat
deriving DecidableEq, Repr

/-- Embedding of `HAL_GPIO_EXTI_Callback`: whatever GPIO pin `n`
triggered, the posted event carries the current tick count, kind
`EVT_INTN`, and unit 0. -/
def HAL_GPIO_EXTI_Callback (tickCount : Nat) (n : Nat) : Event :=
  { t_ms := tickCount, id := EVT_INTN, unit := 0 }

/-- One iteration of the `halTask` loop body on a dequeued event:
skip if the unit index is out of range; for an `EVT_INTN` event with a
registered callback, compute the read length, run the blocking
receive into the unit's buffer, decode the cargo length from the
(post-read) buffer, update `rxRemaining`, and invoke `onRx` with
`(cookie, rxBuf, readLen, t_ms * 1000)` — the C ignores the receive's
return status throughout; any other event kind is ignored.  Returns
the new shared state and the trace of the iteration. -/
def halTaskStep (SH2_UNITS maxTransfer : Nat) (st : HalState) (ev : Event)
    (oc : I2cOutcome) : HalState × List BusEv :=
  if ev.unit ≥ SH2_UNITS then (st, [])
  else if ev.id = EVT_INTN then
    let pSh2 := st.sh2 ev.unit
    if pSh2.onRx then
      let readLen := computeReadLen maxTransfer pSh2.rxRemaining
      let r := i2cBlockingRx st.i2cResetNeeded pSh2.addr pSh2.rxBuf readLen oc
      let buf' := r.2.2.1
      let cargoLen := decodeCargoLen buf'
      let u' := { pSh2 with rxBuf := buf', rxRemaining := nextRxRemaining cargoLen readLen }
      ({ i2cResetNeeded := r.2.1,
         sh2 := fun i => if i = ev.unit then u' else st.sh2 i },
       r.2.2.2 ++ [BusEv.onRxCall ev.unit pSh2.cookie buf' readLen ((ev.t_ms * 1000) % 4294967296)])
    else (st, [])
  else (st, [])

/-! ## Theorems -/

/-- Masking a value below `2^16` with `0xFFFF7FFF` (the 32-bit pattern
of `~0x8000`) clears exactly bit 15, i.e. reduces the value
mod `2^15`. -/
theorem and_mask7FFF_of_lt (x : Nat) (hx : x < 65536) :
    x &&& 0xFFFF7FFF = x % 32768 := by
  have h1 : x &&& 0xFFFF = x := by
    have := Nat.and_pow_two_sub_one_eq_mod x 16
    simpa [Nat.mod_eq_of_lt hx] using this
  have h2 : (0xFFFF : Nat) &&& 0xFFFF7FFF = 0x7FFF := by decide
  have h3 : x &&& 0x7FFF = x % 32768 := by
    have := Nat.and_pow_two_sub_one_eq_mod x 15
    simpa using this
  calc x &&& 0xFFFF7FFF = (x &&& 0xFFFF) &&& 0xFFFF7FFF := by rw [h1]
    _ = x &&& ((0xFFFF : Nat) &&& 0xFFFF7FFF) := Nat.and_assoc x 0xFFFF 0xFFFF7FFF
    _ = x &&& 0x7FFF := by rw [h2]
    _ = x % 32768 := h3

/-- C1: the worker task's next read length is
`max(pendingRemainder, 4)` capped at the maximum single-transfer size;
after a read of length `L` whose header declared cargo length `C`,
`rxRemaining` becomes `C - L + 4` when `C > L` and `0` when `C ≤ L`,
so the next computed read length is `min(maxTransfer, C - L + 4)` when
`C > L` and `4` (header-only) when `C ≤ L`. -/
theorem readLen_state_machine (maxTransfer remaining C L : Nat)
    (hmt : SHTP_HEADER_LEN ≤ maxTransfer) (hC : C < 32768) :
    computeReadLen maxTransfer remaining
      = min maxTransfer (max remaining SHTP_HEADER_LEN) ∧
    nextRxRemaining C L = (if C > L then C - L + SHTP_HEADER_LEN else 0) ∧
    computeReadLen maxTransfer (nextRxRemaining C L)
      = (if C > L then min maxTransfer (C - L + SHTP_HEADER_LEN)
         else SHTP_HEADER_LEN) := by
  simp only [computeReadLen, nextRxRemaining, SHTP_HEADER_LEN] at *
  refine ⟨?_, ?_, ?_⟩ <;> split_ifs <;> omega

/-- Witness for `readLen_state_machine` at `maxTransfer = 384`,
`remaining = 0`, `C = 100`, `L = 4`. -/
theorem readLen_state_machine_witness :
    computeReadLen 384 0 = min 384 (max 0 SHTP_HEADER_LEN) ∧
    nextRxRemaining 100 4 = (if 100 > 4 then 100 - 4 + SHTP_HEADER_LEN else 0) ∧
    computeReadLen 384 (nextRxRemaining 100 4)
      = (if 100 > 4 then min 384 (100 - 4 + SHTP_HEADER_LEN)
         else SHTP_HEADER_LEN) :=
  readLen_state_machine 384 0 100 4 (by decide) (by decide)

/-- C4: the cargo length the worker task extracts from a received
buffer equals the 16-bit little-endian value of the first two header
bytes with bit 15 masked off, i.e. `(buf[1] * 256 + buf[0]) % 32768`. -/
theorem decodeCargoLen_eq (b0 b1 : Nat) (rest : List Nat)
    (h0 : b0 < 256) (h1 : b1 < 256) :
    decodeCargoLen (b0 :: b1 :: rest) = (b1 * 256 + b0) % 32768 := by
  have hx : b1 <<< 8 + b0 = b1 * 256 + b0 := by
    rw [Nat.shiftLeft_eq]
  have hlt : b1 * 256 + b0 < 65536 := by omega
  simp only [decodeCargoLen, List.getD, List.get?, Option.getD_some]
  rw [hx]
  exact and_mask7FFF_of_lt _ hlt

/-- Witness for `decodeCargoLen_eq` on the buffer `[0x34, 0x92]`
(declared length `0x9234` with the continuation bit set, cargo
`0x1234`). -/
theorem decodeCargoLen_eq_witness :
    decodeCargoLen (0x34 :: 0x92 :: [0, 0]) = (0x92 * 256 + 0x34) % 32768 :=
  decodeCargoLen_eq 0x34 0x92 [0, 0] (by decide) (by decide)

/-- C2: both blocking bus primitives return `IoError` on a synchronous
issue failure and on a completion-with-error, `Ok` on a successful
completion; and on every one of these paths the trace takes and gives
the bus mutex equally often and ends with the give, so the lock is free
when the call returns and a following transaction cannot deadlock. -/
theorem bus_primitive_status_and_lock (rn : Bool) (addr len : Nat)
    (buf data txData : List Nat) :
    (i2cBlockingRx rn addr buf len .issueFail).1 = .ioErr ∧
    (i2cBlockingRx rn addr buf len (.completeErr data)).1 = .ioErr ∧
    (i2cBlockingRx rn addr buf len (.completeOk data)).1 = .ok ∧
    (i2cBlockingTx rn addr txData len .issueFail).1 = .ioErr ∧
    (i2cBlockingTx rn addr txData len (.completeErr data)).1 = .ioErr ∧
    (i2cBlockingTx rn addr txData len (.completeOk data)).1 = .ok ∧
    ∀ oc : I2cOutcome,
      (i2cBlockingRx rn addr buf len oc).2.2.2.count BusEv.takeI2cMutex
        = (i2cBlockingRx rn addr buf len oc).2.2.2.count BusEv.giveI2cMutex ∧
      (i2cBlockingRx rn addr buf len oc).2.2.2.getLast? = some BusEv.giveI2cMutex ∧
      (i2cBlockingTx rn addr txData len oc).2.2.count BusEv.takeI2cMutex
        = (i2cBlockingTx rn addr txData len oc).2.2.count BusEv.giveI2cMutex ∧
      (i2cBlockingTx rn addr txData len oc).2.2.getLast? = some BusEv.giveI2cMutex := by
  refine ⟨by cases rn <;> rfl, by cases rn <;> rfl, by cases rn <;> rfl,
          by cases rn <;> rfl, by cases rn <;> rfl, by cases rn <;> rfl, ?_⟩
  intro oc
  cases oc <;> cases rn <;>
    refine ⟨?_, ?_, ?_, ?_⟩ <;>
    simp [i2cBlockingRx, i2cBlockingTx, List.count_cons, List.getLast?]

/-- C7: every entry point rejects a unit index at or beyond
`SH2_UNITS` with `BadParam`, an unchanged state, and an empty trace —
no lock is taken, no bus transaction is issued, no per-unit or shared
state is modified. -/
theorem bad_unit_rejected (U : Nat) (st : HalState) (unit : Nat)
    (dfu onRxv : Bool) (ck : Nat) (pData : List Nat) (len : Nat) (oc : I2cOutcome)
    (h : unit ≥ U) :
    sh2_hal_reset U st unit dfu onRxv ck = (.badParam, st, []) ∧
    sh2_hal_tx U st unit pData len oc = (.badParam, st, []) ∧
    sh2_hal_rx U st unit pData len oc = (.badParam, st, pData, []) ∧
    sh2_hal_block U st unit = (.badParam, st, []) ∧
    sh2_hal_unblock U st unit = (.badParam, st, []) := by
  refine ⟨?_, ?_, ?_, ?_, ?_⟩ <;>
    simp [sh2_hal_reset, sh2_hal_tx, sh2_hal_rx, sh2_hal_block, sh2_hal_unblock, h]

/-- Witness for `bad_unit_rejected` at two configured units and unit
index 2. -/
theorem bad_unit_rejected_witness :
    sh2_hal_reset 2 (sh2_hal_init 4) 2 false false 0
      = (.badParam, sh2_hal_init 4, []) ∧
    sh2_hal_tx 2 (sh2_hal_init 4) 2 [1, 2] 2 .issueFail
      = (.badParam, sh2_hal_init 4, []) ∧
    sh2_hal_rx 2 (sh2_hal_init 4) 2 [1, 2] 2 .issueFail
      = (.badParam, sh2_hal_init 4, [1, 2], []) ∧
    sh2_hal_block 2 (sh2_hal_init 4) 2 = (.badParam, sh2_hal_init 4, []) ∧
    sh2_hal_unblock 2 (sh2_hal_init 4) 2 = (.badParam, sh2_hal_init 4, []) :=
  bad_unit_rejected 2 (sh2_hal_init 4) 2 false false 0 [1, 2] 2 .issueFail
    (by decide)

/-- C8: a dequeued event whose unit index is out of range, whose kind
is not `EVT_INTN`, or whose unit has no registered receive callback
leaves the worker task's state exactly unchanged and produces an empty
trace — no bus transaction, no per-unit update. -/
theorem dropped_event_no_effect (U MT : Nat) (st : HalState) (ev : Event)
    (oc : I2cOutcome)
    (h : ev.unit ≥ U ∨ ev.id ≠ EVT_INTN ∨ (st.sh2 ev.unit).onRx = false) :
    halTaskStep U MT st ev oc = (st, []) := by
  simp only [halTaskStep]
  split_ifs with h1 h2 h3 <;> first | rfl | (rcases h with h | h | h <;> simp_all)

/-- Witness for `dropped_event_no_effect`: an event of unknown kind 1
for unit 0 is ignored. -/
theorem dropped_event_no_effect_witness :
    halTaskStep 1 4 (sh2_hal_init 4) { t_ms := 0, id := 1, unit := 0 } .issueFail
      = (sh2_hal_init 4, []) :=
  dropped_event_no_effect 1 4 (sh2_hal_init 4) { t_ms := 0, id := 1, unit := 0 }
    .issueFail (Or.inr (Or.inl (by decide)))

/-- C9: for a valid unit, `sh2_hal_tx` / `sh2_hal_rx` with length 0
return `Ok` with an unchanged state and an empty trace (no lock, no
bus transaction); with a positive length they issue one bus transfer
at the unit's stored address. -/
theorem zero_len_noop_pos_len_issues (U : Nat) (st : HalState) (unit len : Nat)
    (pData : List Nat) (oc : I2cOutcome) (hu : unit < U) :
    sh2_hal_tx U st unit pData 0 oc = (.ok, st, []) ∧
    sh2_hal_rx U st unit pData 0 oc = (.ok, st, pData, []) ∧
    (0 < len →
      BusEv.issueTx (st.sh2 unit).addr pData len
        ∈ (sh2_hal_tx U st unit pData len oc).2.2 ∧
      BusEv.issueRx (st.sh2 unit).addr len
        ∈ (sh2_hal_rx U st unit pData len oc).2.2.2) := by
  have hnot : ¬ unit ≥ U := Nat.not_le.mpr hu
  refine ⟨by simp [sh2_hal_tx, hnot], by simp [sh2_hal_rx, hnot], ?_⟩
  intro hlen
  constructor <;>
    cases oc <;>
      simp [sh2_hal_tx, sh2_hal_rx, i2cBlockingTx, i2cBlockingRx, hnot,
            Nat.pos_iff_ne_zero.mp hlen]

/-- Witness for `zero_len_noop_pos_len_issues` at one configured unit,
unit 0, length 2. -/
theorem zero_len_noop_pos_len_issues_witness :
    sh2_hal_tx 1 (sh2_hal_init 4) 0 [9, 9] 0 .issueFail
      = (.ok, sh2_hal_init 4, []) ∧
    sh2_hal_rx 1 (sh2_hal_init 4) 0 [9, 9] 0 .issueFail
      = (.ok, sh2_hal_init 4, [9, 9], []) ∧
    (0 < 2 →
      BusEv.issueTx ((sh2_hal_init 4).sh2 0).addr [9, 9] 2
        ∈ (sh2_hal_tx 1 (sh2_hal_init 4) 0 [9, 9] 2 .issueFail).2.2 ∧
      BusEv.issueRx ((sh2_hal_init 4).sh2 0).addr 2
        ∈ (sh2_hal_rx 1 (sh2_hal_init 4) 0 [9, 9] 2 .issueFail).2.2.2) :=
  zero_len_noop_pos_len_issues 1 (sh2_hal_init 4) 0 2 [9, 9] .issueFail (by decide)

/-- C10: every event posted by the GPIO interrupt handler carries unit
index 0 and kind `EVT_INTN`, whatever pin `n` fired; consequently the
worker task's processing of such an event never changes the state of a
unit other than 0 and never delivers data (invokes `onRx`) for a unit
other than 0. -/
theorem exti_events_only_unit0 (tick n U MT : Nat) (st : HalState)
    (oc : I2cOutcome) (u : Nat) (hu : u ≠ 0) :
    (HAL_GPIO_EXTI_Callback tick n).unit = 0 ∧
    (HAL_GPIO_EXTI_Callback tick n).id = EVT_INTN ∧
    (halTaskStep U MT st (HAL_GPIO_EXTI_Callback tick n) oc).1.sh2 u = st.sh2 u ∧
    ∀ ck b l t, BusEv.onRxCall u ck b l t
      ∉ (halTaskStep U MT st (HAL_GPIO_EXTI_Callback tick n) oc).2 := by
  refine ⟨rfl, rfl, ?_, ?_⟩
  · simp only [halTaskStep, HAL_GPIO_EXTI_Callback]
    split_ifs <;> simp [hu]
  · intro ck b l t
    simp only [halTaskStep, HAL_GPIO_EXTI_Callback, i2cBlockingRx]
    split_ifs <;> cases oc <;> simp [hu]

/-- Witness for `exti_events_only_unit0` at unit 1. -/
theorem exti_events_only_unit0_witness :
    (HAL_GPIO_EXTI_Callback 3 7).unit = 0 ∧
    (HAL_GPIO_EXTI_Callback 3 7).id = EVT_INTN ∧
    (halTaskStep 2 4 (sh2_hal_init 4) (HAL_GPIO_EXTI_Callback 3 7) .issueFail).1.sh2 1
      = (sh2_hal_init 4).sh2 1 ∧
    ∀ ck b l t, BusEv.onRxCall 1 ck b l t
      ∉ (halTaskStep 2 4 (sh2_hal_init 4) (HAL_GPIO_EXTI_Callback 3 7) .issueFail).2 :=
  exti_events_only_unit0 3 7 2 4 (sh2_hal_init 4) .issueFail 1 (by decide)

/-- C5: for a valid unit, `sh2_hal_reset` succeeds and stores the
mode-dependent address `unitAddr unit dfuMode` (the DFU constant when
`dfuMode`, the normal SH-2 constant otherwise); a subsequent
`sh2_hal_tx` or `sh2_hal_rx` for that unit issues its bus transfer at
exactly that stored address, and neither call alters any per-unit
state, so the address persists until the next reset. -/
theorem reset_sets_addr_used_by_tx_rx (U : Nat) (st : HalState) (unit : Nat)
    (dfu onRxv : Bool) (ck len : Nat) (pData : List Nat) (oc : I2cOutcome)
    (hu : unit < U) (hlen : 0 < len) :
    (sh2_hal_reset U st unit dfu onRxv ck).1 = .ok ∧
    (((sh2_hal_reset U st unit dfu onRxv ck).2.1.sh2 unit).addr
      = unitAddr unit dfu) ∧
    (BusEv.issueTx (unitAddr unit dfu) pData len
      ∈ (sh2_hal_tx U (sh2_hal_reset U st unit dfu onRxv ck).2.1 unit pData len oc).2.2) ∧
    (BusEv.issueRx (unitAddr unit dfu) len
      ∈ (sh2_hal_rx U (sh2_hal_reset U st unit dfu onRxv ck).2.1 unit pData len oc).2.2.2) ∧
    ((sh2_hal_tx U (sh2_hal_reset U st unit dfu onRxv ck).2.1 unit pData len oc).2.1.sh2
      = (sh2_hal_reset U st unit dfu onRxv ck).2.1.sh2) ∧
    ((sh2_hal_rx U (sh2_hal_reset U st unit dfu onRxv ck).2.1 unit pData len oc).2.1.sh2
      = (sh2_hal_reset U st unit dfu onRxv ck).2.1.sh2) := by
  have hnot : ¬ unit ≥ U := Nat.not_le.mpr hu
  refine ⟨by simp [sh2_hal_reset, hnot], by simp [sh2_hal_reset, hnot], ?_, ?_, ?_, ?_⟩ <;>
    cases oc <;>
      simp [sh2_hal_reset, sh2_hal_tx, sh2_hal_rx, i2cBlockingTx, i2cBlockingRx,
            hnot, Nat.pos_iff_ne_zero.mp hlen]

/-- Witness for `reset_sets_addr_used_by_tx_rx`: unit 1, DFU mode, two
configured units, length 3. -/
theorem reset_sets_addr_used_by_tx_rx_witness :
    (sh2_hal_reset 2 (sh2_hal_init 4) 1 true true 5).1 = .ok ∧
    (((sh2_hal_reset 2 (sh2_hal_init 4) 1 true true 5).2.1.sh2 1).addr
      = unitAddr 1 true) ∧
    (BusEv.issueTx (unitAddr 1 true) [1, 2, 3] 3
      ∈ (sh2_hal_tx 2 (sh2_hal_reset 2 (sh2_hal_init 4) 1 true true 5).2.1 1
          [1, 2, 3] 3 (.completeOk [])).2.2) ∧
    (BusEv.issueRx (unitAddr 1 true) 3
      ∈ (sh2_hal_rx 2 (sh2_hal_reset 2 (sh2_hal_init 4) 1 true true 5).2.1 1
          [1, 2, 3] 3 (.completeOk [])).2.2.2) ∧
    ((sh2_hal_tx 2 (sh2_hal_reset 2 (sh2_hal_init 4) 1 true true 5).2.1 1
        [1, 2, 3] 3 (.completeOk [])).2.1.sh2
      = (sh2_hal_reset 2 (sh2_hal_init 4) 1 true true 5).2.1.sh2) ∧
    ((sh2_hal_rx 2 (sh2_hal_reset 2 (sh2_hal_init 4) 1 true true 5).2.1 1
        [1, 2, 3] 3 (.completeOk [])).2.1.sh2
      = (sh2_hal_reset 2 (sh2_hal_init 4) 1 true true 5).2.1.sh2) :=
  reset_sets_addr_used_by_tx_rx 2 (sh2_hal_init 4) 1 true true 5 3 [1, 2, 3]
    (.completeOk []) (by decide) (by decide)

/-- C6: a successful `sh2_hal_reset` sets `i2cResetNeeded`
unconditionally; the first bus transaction issued afterwards (read or
write) reinitializes the bus peripheral before the transfer and clears
the flag, and a transaction issued from the cleared state performs no
reinitialization. -/
theorem reset_marks_reinit_once (U : Nat) (st : HalState) (unit : Nat)
    (dfu onRxv : Bool) (ck len len2 : Nat) (pData : List Nat) (oc oc2 : I2cOutcome)
    (hu : unit < U) (hlen : 0 < len) (hlen2 : 0 < len2) :
    (sh2_hal_reset U st unit dfu onRxv ck).2.1.i2cResetNeeded = true ∧
    ((sh2_hal_rx U (sh2_hal_reset U st unit dfu onRxv ck).2.1 unit pData len oc).2.1.i2cResetNeeded
      = false) ∧
    ((sh2_hal_rx U (sh2_hal_reset U st unit dfu onRxv ck).2.1 unit pData len oc).2.2.2.take 3
      = [BusEv.takeI2cMutex, BusEv.i2cReset, BusEv.issueRx (unitAddr unit dfu) len]) ∧
    ((sh2_hal_tx U (sh2_hal_reset U st unit dfu onRxv ck).2.1 unit pData len oc).2.1.i2cResetNeeded
      = false) ∧
    ((sh2_hal_tx U (sh2_hal_reset U st unit dfu onRxv ck).2.1 unit pData len oc).2.2.take 3
      = [BusEv.takeI2cMutex, BusEv.i2cReset, BusEv.issueTx (unitAddr unit dfu) pData len]) ∧
    (BusEv.i2cReset
      ∉ (sh2_hal_rx U (sh2_hal_rx U (sh2_hal_reset U st unit dfu onRxv ck).2.1 unit pData len oc).2.1
          unit pData len2 oc2).2.2.2) ∧
    (BusEv.i2cReset
      ∉ (sh2_hal_tx U (sh2_hal_rx U (sh2_hal_reset U st unit dfu onRxv ck).2.1 unit pData len oc).2.1
          unit pData len2 oc2).2.2) := by
  have hnot : ¬ unit ≥ U := Nat.not_le.mpr hu
  refine ⟨by simp [sh2_hal_reset, hnot], ?_, ?_, ?_, ?_, ?_, ?_⟩ <;>
    cases oc <;> cases oc2 <;>
      simp [sh2_hal_reset, sh2_hal_tx, sh2_hal_rx, i2cBlockingTx, i2cBlockingRx,
            hnot, Nat.pos_iff_ne_zero.mp hlen, Nat.pos_iff_ne_zero.mp hlen2]

/-- Witness for `reset_marks_reinit_once`: unit 0, normal mode, one
configured unit, lengths 4 and 2. -/
theorem reset_marks_reinit_once_witness :
    (sh2_hal_reset 1 (sh2_hal_init 4) 0 false true 5).2.1.i2cResetNeeded = true ∧
    ((sh2_hal_rx 1 (sh2_hal_reset 1 (sh2_hal_init 4) 0 false true 5).2.1 0 [0, 0, 0, 0] 4
        (.completeOk [1, 0, 0, 0])).2.1.i2cResetNeeded = false) ∧
    ((sh2_hal_rx 1 (sh2_hal_reset 1 (sh2_hal_init 4) 0 false true 5).2.1 0 [0, 0, 0, 0] 4
        (.completeOk [1, 0, 0, 0])).2.2.2.take 3
      = [BusEv.takeI2cMutex, BusEv.i2cReset, BusEv.issueRx (unitAddr 0 false) 4]) ∧
    ((sh2_hal_tx 1 (sh2_hal_reset 1 (sh2_hal_init 4) 0 false true 5).2.1 0 [0, 0, 0, 0] 4
        (.completeOk [1, 0, 0, 0])).2.1.i2cResetNeeded = false) ∧
    ((sh2_hal_tx 1 (sh2_hal_reset 1 (sh2_hal_init 4) 0 false true 5).2.1 0 [0, 0, 0, 0] 4
        (.completeOk [1, 0, 0, 0])).2.2.take 3
      = [BusEv.takeI2cMutex, BusEv.i2cReset, BusEv.issueTx (unitAddr 0 false) [0, 0, 0, 0] 4]) ∧
    (BusEv.i2cReset
      ∉ (sh2_hal_rx 1 (sh2_hal_rx 1 (sh2_hal_reset 1 (sh2_hal_init 4) 0 false true 5).2.1 0
          [0, 0, 0, 0] 4 (.completeOk [1, 0, 0, 0])).2.1 0 [0, 0, 0, 0] 2
          (.completeOk [1, 0, 0, 0])).2.2.2) ∧
    (BusEv.i2cReset
      ∉ (sh2_hal_tx 1 (sh2_hal_rx 1 (sh2_hal_reset 1 (sh2_hal_init 4) 0 false true 5).2.1 0
          [0, 0, 0, 0] 4 (.completeOk [1, 0, 0, 0])).2.1 0 [0, 0, 0, 0] 2
          (.completeOk [1, 0, 0, 0])).2.2) :=
  reset_marks_reinit_once 1 (sh2_hal_init 4) 0 false true 5 4 2 [0, 0, 0, 0]
    (.completeOk [1, 0, 0, 0]) (.completeOk [1, 0, 0, 0]) (by decide) (by decide) (by decide)

/-- A unit with a registered callback, normal-mode address, a stale
buffer whose header bytes declare cargo length 10, and no pending
remainder; used to exercise the worker task on a failing read. -/
def errUnit : Sh2Unit :=
  { onRx := true, cookie := 7, addr := 0x94, rxBuf := [10, 0, 0, 0], rxRemaining := 0 }

/-- Shared state holding `errUnit` at every index, bus already
initialized. -/
def errSt : HalState := { i2cResetNeeded := false, sh2 := fun _ => errUnit }

/-- An interrupt-notification event for unit 0 at tick 5. -/
def errEv : Event := { t_ms := 5, id := EVT_INTN, unit := 0 }

/-- C3 counterexample: with one configured unit and a synchronous
issue failure (the read returns `IoError`), the worker task still
decodes the stale buffer's header (cargo length 10), still updates
`rxRemaining` from 0 to 10, and still invokes the receive callback —
refuting the claim that on a read error the state machine is not
updated and the callback is not invoked. -/
theorem halTask_uses_failed_read_cex :
    (i2cBlockingRx errSt.i2cResetNeeded (errSt.sh2 0).addr (errSt.sh2 0).rxBuf
        (computeReadLen 384 (errSt.sh2 0).rxRemaining) .issueFail).1 = .ioErr ∧
    errUnit.rxRemaining = 0 ∧
    ((halTaskStep 1 384 errSt errEv .issueFail).1.sh2 0).rxRemaining = 10 ∧
    BusEv.onRxCall 0 7 [10, 0, 0, 0] 4 5000
      ∈ (halTaskStep 1 384 errSt errEv .issueFail).2 := by
  refine ⟨rfl, rfl, rfl, ?_⟩
  decide

/-- C3 amended: for an interrupt event on a valid unit with a
registered callback, even when the bus read returns `IoError`, the
worker task updates `rxRemaining` from whatever the buffer holds after
the failed read and invokes the receive callback; the read's status is
discarded. -/
theorem halTask_delivers_despite_error (U MT : Nat) (st : HalState) (ev : Event)
    (oc : I2cOutcome) (hu : ev.unit < U) (hid : ev.id = EVT_INTN)
    (hcb : (st.sh2 ev.unit).onRx = true)
    (herr : (i2cBlockingRx st.i2cResetNeeded (st.sh2 ev.unit).addr (st.sh2 ev.unit).rxBuf
        (computeReadLen MT (st.sh2 ev.unit).rxRemaining) oc).1 = .ioErr) :
    ((halTaskStep U MT st ev oc).1.sh2 ev.unit).rxRemaining
      = nextRxRemaining
          (decodeCargoLen
            (i2cBlockingRx st.i2cResetNeeded (st.sh2 ev.unit).addr (st.sh2 ev.unit).rxBuf
              (computeReadLen MT (st.sh2 ev.unit).rxRemaining) oc).2.2.1)
          (computeReadLen MT (st.sh2 ev.unit).rxRemaining) ∧
    BusEv.onRxCall ev.unit (st.sh2 ev.unit).cookie
        (i2cBlockingRx st.i2cResetNeeded (st.sh2 ev.unit).addr (st.sh2 ev.unit).rxBuf
          (computeReadLen MT (st.sh2 ev.unit).rxRemaining) oc).2.2.1
        (computeReadLen MT (st.sh2 ev.unit).rxRemaining)
        ((ev.t_ms * 1000) % 4294967296)
      ∈ (halTaskStep U MT st ev oc).2 := by
  have hnot : ¬ ev.unit ≥ U := Nat.not_le.mpr hu
  constructor <;> simp [halTaskStep, hnot, hid, hcb]

/-- Witness for `halTask_delivers_despite_error` at the concrete
failing-read input of the counterexample. -/
theorem halTask_delivers_despite_error_witness :
    ((halTaskStep 1 384 errSt errEv .issueFail).1.sh2 errEv.unit).rxRemaining
      = nextRxRemaining
          (decodeCargoLen
            (i2cBlockingRx errSt.i2cResetNeeded (errSt.sh2 errEv.unit).addr
              (errSt.sh2 errEv.unit).rxBuf
              (computeReadLen 384 (errSt.sh2 errEv.unit).rxRemaining) .issueFail).2.2.1)
          (computeReadLen 384 (errSt.sh2 errEv.unit).rxRemaining) ∧
    BusEv.onRxCall errEv.unit (errSt.sh2 errEv.unit).cookie
        (i2cBlockingRx errSt.i2cResetNeeded (errSt.sh2 errEv.unit).addr
          (errSt.sh2 errEv.unit).rxBuf
          (computeReadLen 384 (errSt.sh2 errEv.unit).rxRemaining) .issueFail).2.2.1
        (computeReadLen 384 (errSt.sh2 errEv.unit).rxRemaining)
        ((errEv.t_ms * 1000) % 4294967296)
      ∈ (halTaskStep 1 384 errSt errEv .issueFail).2 :=
  halTask_delivers_despite_error 1 384 errSt errEv .issueFail (by decide) (by decide)
    (by decide) (by decide)

end Sh2Hal
